import Mathlib

/-!
Shallow embedding of the robust-data-processor pipeline.

Sources embedded here:
- ingest/main.go : the ingest Lambda handler (HTTP -> LogEvent -> SQS).
- worker/main.go (appended in main.tf) : the worker Lambda handler
  (SQS batch -> redaction -> DynamoDB put), redactPII and its regexes.
- main.tf : the DynamoDB table keyed by (tenant_id, log_id).

Strings are modelled as `List Char`.  Go's regexp replacement
(`ReplaceAllString`) is modelled by a left-to-right scanner with
specialized deterministic matchers for the three concrete patterns
(each pattern's character classes are disjoint at every choice point,
so Go's leftmost-first backtracking collapses to a function).
-/

namespace RDP

abbrev Str := List Char

/-- Go `strings.Contains s sub` (substring test). -/
def containsSubstr : Str → Str → Bool
  | [], sub => sub.isPrefixOf []
  | c :: t, sub => sub.isPrefixOf (c :: t) || containsSubstr t sub

/-- Go `strings.ToLower` restricted to ASCII (header names are ASCII). -/
def toLowerStr (s : Str) : Str := s.map Char.toLower

/-- Word character of Go regexp `\w` : `[0-9A-Za-z_]`. -/
def isWordChar (c : Char) : Bool := c.isAlphanum || c = '_'

def prevIsWord : Option Char → Bool
  | none => false
  | some p => isWordChar p

/-- `\b` holds at the start of a candidate match beginning with `c`,
given the character just before the position (`none` at string start). -/
def boundaryAt (prev : Option Char) (c : Char) : Bool :=
  prevIsWord prev != isWordChar c

/-- `\b` holds after a match that ended in a word character, given the
remaining suffix. -/
def endBoundary : Str → Bool
  | [] => true
  | c :: _ => !isWordChar c

/-- Consume exactly `n` ASCII digits (`\d{n}`). -/
def eatDigits : Nat → Str → Option Str
  | 0, s => some s
  | _ + 1, [] => none
  | n + 1, c :: rest => if c.isDigit then eatDigits n rest else none

/-- Consume `[-.]?` (greedy; the following pattern element is `\d`, which
is disjoint from `[-.]`, so greediness is forced). -/
def eatOptSep : Str → Str
  | [] => []
  | c :: rest => if c = '-' || c = '.' then rest else c :: rest

/-- Consume one fixed character. -/
def eatChar (ch : Char) : Str → Option Str
  | [] => none
  | c :: rest => if c = ch then some rest else none

/-- Match `\b\d{3}[-.]?\d{3}[-.]?\d{4}\b` (phonePattern) at the head of
`s`; returns the remainder after the match. -/
def matchPhone (prev : Option Char) (s : Str) : Option Str :=
  match s with
  | [] => none
  | c :: _ =>
    if !boundaryAt prev c then none
    else
      match eatDigits 3 s with
      | none => none
      | some s1 =>
        match eatDigits 3 (eatOptSep s1) with
        | none => none
        | some s2 =>
          match eatDigits 4 (eatOptSep s2) with
          | none => none
          | some s3 => if endBoundary s3 then some s3 else none

/-- Match `\b\d{3}-\d{2}-\d{4}\b` (ssnPattern) at the head of `s`. -/
def matchSSN (prev : Option Char) (s : Str) : Option Str :=
  match s with
  | [] => none
  | c :: _ =>
    if !boundaryAt prev c then none
    else
      match eatDigits 3 s with
      | none => none
      | some s1 =>
        match eatChar '-' s1 with
        | none => none
        | some s2 =>
          match eatDigits 2 s2 with
          | none => none
          | some s3 =>
            match eatChar '-' s3 with
            | none => none
            | some s4 =>
              match eatDigits 4 s4 with
              | none => none
              | some s5 => if endBoundary s5 then some s5 else none

/-- Character class `[\w.-]` of the email pattern. -/
def isEmailChar (c : Char) : Bool := isWordChar c || c = '.' || c = '-'

/-- Split point of the greedy domain part `[\w.-]+\.\w+` inside the
maximal `[\w.-]` run `run2` after the `@`: the largest `k ≥ 1` such that
`run2[k] = '.'` and `run2[k+1]` is a word character (Go's greedy
quantifier backtracks from the longest candidate). -/
def domainSplitOk (run2 : Str) (k : Nat) : Bool :=
  decide (1 ≤ k) && (run2.getD k ' ' == '.') && isWordChar (run2.getD (k + 1) ' ')

def findDomainSplit (run2 : Str) : Option Nat :=
  ((List.range run2.length).filter (domainSplitOk run2)).getLast?

/-- Match the part of the email pattern after `@`: `[\w.-]+\.\w+\b`. -/
def matchEmailDomain (s2 : Str) : Option Str :=
  let run2 := s2.takeWhile isEmailChar
  match findDomainSplit run2 with
  | none => none
  | some k =>
    let afterDot := s2.drop (k + 1)
    let wlen := (afterDot.takeWhile isWordChar).length
    some (s2.drop (k + 1 + wlen))

/-- Match `\b[\w.-]+@[\w.-]+\.\w+\b` (emailPattern) at the head of `s`.
The local part `[\w.-]+` is forced to be the maximal run (its class is
disjoint from `@`). -/
def matchEmail (prev : Option Char) (s : Str) : Option Str :=
  match s with
  | [] => none
  | c :: _ =>
    if !isEmailChar c then none
    else if !boundaryAt prev c then none
    else
      match s.dropWhile isEmailChar with
      | '@' :: s2 => matchEmailDomain s2
      | _ => none

/-- Go `Regexp.ReplaceAllString`: scan left to right over the original
text, replace each non-overlapping leftmost match with `marker`, and
continue after the match end (tracking the original previous character
for `\b`).  Fuelled; `redactPII` supplies sufficient fuel. -/
def replaceScan (tryM : Option Char → Str → Option Str) (marker : Str) :
    Nat → Option Char → Str → Str
  | 0, _, s => s
  | _ + 1, _, [] => []
  | fuel + 1, prev, c :: rest =>
    match tryM prev (c :: rest) with
    | some rem =>
      let n := (c :: rest).length - rem.length
      if n = 0 then c :: replaceScan tryM marker fuel (some c) rest
      else marker ++ replaceScan tryM marker fuel
        (some (((c :: rest).take n).getLastD c)) rem
    | none => c :: replaceScan tryM marker fuel (some c) rest

def redactedMarker : Str := ("[REDACTED]").toList

/-- worker/main.go `redactPII`: phone, then SSN, then email substitution,
each replacing every non-overlapping match with `[REDACTED]`. -/
def redactPII (text : Str) : Str :=
  let t1 := replaceScan matchPhone redactedMarker (2 * text.length + 2) none text
  let t2 := replaceScan matchSSN redactedMarker (2 * t1.length + 2) none t1
  replaceScan matchEmail redactedMarker (2 * t2.length + 2) none t2

/-! ## JSON values and Go `encoding/json` parsing -/

inductive Json where
  | null
  | boolv (b : Bool)
  | num (raw : Str)
  | str (s : Str)
  | arr (xs : List Json)
  | obj (kvs : List (Str × Json))

def isJsonWs (c : Char) : Bool := c = ' ' || c = '\t' || c = '\n' || c = '\r'

def skipWs (s : Str) : Str := s.dropWhile isJsonWs

def hexVal (c : Char) : Option Nat :=
  if c.isDigit then some (c.toNat - 48)
  else if 'a' ≤ c ∧ c ≤ 'f' then some (c.toNat - 87)
  else if 'A' ≤ c ∧ c ≤ 'F' then some (c.toNat - 55)
  else none

/-- Four hex digits of a `\uXXXX` escape. -/
def parseU4 : Str → Option (Nat × Str)
  | a :: b :: c :: d :: rest =>
    match hexVal a, hexVal b, hexVal c, hexVal d with
    | some x, some y, some z, some w => some (4096 * x + 256 * y + 16 * z + w, rest)
    | _, _, _, _ => none
  | _ => none

def replacementChar : Char := Char.ofNat 0xFFFD

def isHighSurrogate (n : Nat) : Bool := 0xD800 ≤ n && n < 0xDC00
def isLowSurrogate (n : Nat) : Bool := 0xDC00 ≤ n && n < 0xE000

/-- JSON string body after the opening quote: decode escapes up to the
closing quote; unescaped control characters are an error, unpaired
surrogates decode to U+FFFD (Go behaviour). -/
def parseStringRest : Nat → Str → Str → Option (Str × Str)
  | 0, _, _ => none
  | _ + 1, [], _ => none
  | fuel + 1, c :: rest, acc =>
    if c = '"' then some (acc.reverse, rest)
    else if c = '\\' then
      match rest with
      | [] => none
      | e :: rest2 =>
        if e = '"' then parseStringRest fuel rest2 ('"' :: acc)
        else if e = '\\' then parseStringRest fuel rest2 ('\\' :: acc)
        else if e = '/' then parseStringRest fuel rest2 ('/' :: acc)
        else if e = 'b' then parseStringRest fuel rest2 (Char.ofNat 8 :: acc)
        else if e = 'f' then parseStringRest fuel rest2 (Char.ofNat 12 :: acc)
        else if e = 'n' then parseStringRest fuel rest2 ('\n' :: acc)
        else if e = 'r' then parseStringRest fuel rest2 ('\r' :: acc)
        else if e = 't' then parseStringRest fuel rest2 ('\t' :: acc)
        else if e = 'u' then
          match parseU4 rest2 with
          | none => none
          | some (n, rest3) =>
            if isHighSurrogate n then
              match rest3 with
              | '\\' :: 'u' :: rest4 =>
                match parseU4 rest4 with
                | some (m, rest5) =>
                  if isLowSurrogate m then
                    parseStringRest fuel rest5
                      (Char.ofNat (0x10000 + 1024 * (n - 0xD800) + (m - 0xDC00)) :: acc)
                  else parseStringRest fuel rest3 (replacementChar :: acc)
                | none => parseStringRest fuel rest3 (replacementChar :: acc)
              | _ => parseStringRest fuel rest3 (replacementChar :: acc)
            else if isLowSurrogate n then
              parseStringRest fuel rest3 (replacementChar :: acc)
            else parseStringRest fuel rest3 (Char.ofNat n :: acc)
        else none
    else if c.toNat < 32 then none
    else parseStringRest fuel rest (c :: acc)

/-- JSON number lexeme: `-? (0 | [1-9][0-9]*) (\.[0-9]+)? ([eE][+-]?[0-9]+)?`.
Returns the lexeme and the remainder. -/
def parseNumber (s : Str) : Option (Str × Str) :=
  let (neg, s1) :=
    match s with
    | '-' :: t => (['-'], t)
    | _ => (([] : Str), s)
  match s1 with
  | [] => none
  | c :: t =>
    if c = '0' then
      let intPart := [c]
      let rest := t
      (parseFrac rest).map (fun p => (neg ++ intPart ++ p.1, p.2))
    else if c.isDigit then
      let ds := t.takeWhile Char.isDigit
      let rest := t.dropWhile Char.isDigit
      (parseFrac rest).map (fun p => (neg ++ (c :: ds) ++ p.1, p.2))
    else none
where
  parseFrac (s : Str) : Option (Str × Str) :=
    match s with
    | '.' :: t =>
      match t.takeWhile Char.isDigit with
      | [] => none
      | ds =>
        let rest := t.dropWhile Char.isDigit
        (parseExp rest).map (fun p => ('.' :: ds ++ p.1, p.2))
    | _ => parseExp s
  parseExp (s : Str) : Option (Str × Str) :=
    match s with
    | c :: t =>
      if c = 'e' || c = 'E' then
        let (sgn, t2) :=
          match t with
          | '+' :: u => ((['+'] : Str), u)
          | '-' :: u => ((['-'] : Str), u)
          | _ => (([] : Str), t)
        match t2.takeWhile Char.isDigit with
        | [] => none
        | ds => some (c :: (sgn ++ ds), t2.dropWhile Char.isDigit)
      else some ([], c :: t)
    | [] => some ([], [])

/-- Consume a literal keyword. -/
def eatKeyword : Str → Str → Option Str
  | [], s => some s
  | k :: ks, c :: rest => if c = k then eatKeyword ks rest else none
  | _ :: _, [] => none

mutual

def parseValue : Nat → Str → Option (Json × Str)
  | 0, _ => none
  | fuel + 1, s =>
    match skipWs s with
    | [] => none
    | c :: rest =>
      if c = '"' then
        (parseStringRest (rest.length + 1) rest []).map (fun p => (Json.str p.1, p.2))
      else if c = 't' then (eatKeyword (("rue").toList) rest).map (fun r => (Json.boolv true, r))
      else if c = 'f' then (eatKeyword (("alse").toList) rest).map (fun r => (Json.boolv false, r))
      else if c = 'n' then (eatKeyword (("ull").toList) rest).map (fun r => (Json.null, r))
      else if c = '-' || c.isDigit then
        (parseNumber (c :: rest)).map (fun p => (Json.num p.1, p.2))
      else if c = '\x7b' then
        match skipWs rest with
        | '\x7d' :: rest2 => some (Json.obj [], rest2)
        | rest2 => parseMembers fuel rest2 []
      else if c = '[' then
        match skipWs rest with
        | ']' :: rest2 => some (Json.arr [], rest2)
        | rest2 => parseElems fuel rest2 []
      else none

def parseMembers : Nat → Str → List (Str × Json) → Option (Json × Str)
  | 0, _, _ => none
  | fuel + 1, s, acc =>
    match skipWs s with
    | '"' :: rest =>
      match parseStringRest (rest.length + 1) rest [] with
      | none => none
      | some (k, rest2) =>
        match skipWs rest2 with
        | ':' :: rest3 =>
          match parseValue fuel rest3 with
          | none => none
          | some (v, rest4) =>
            match skipWs rest4 with
            | ',' :: rest5 => parseMembers fuel rest5 (acc ++ [(k, v)])
            | '\x7d' :: rest5 => some (Json.obj (acc ++ [(k, v)]), rest5)
            | _ => none
        | _ => none
    | _ => none

def parseElems : Nat → Str → List Json → Option (Json × Str)
  | 0, _, _ => none
  | fuel + 1, s, acc =>
    match parseValue fuel s with
    | none => none
    | some (v, rest) =>
      match skipWs rest with
      | ',' :: rest2 => parseElems fuel rest2 (acc ++ [v])
      | ']' :: rest2 => some (Json.arr (acc ++ [v]), rest2)
      | _ => none

end

/-- Go `json.Unmarshal`'s syntax check: decode one value, then only
whitespace may remain. -/
def parseJson (s : Str) : Option Json :=
  match parseValue (2 * s.length + 8) s with
  | some (v, rest) => if skipWs rest = [] then some v else none
  | none => none

/-! ## Data model and ingest handler (ingest/main.go) -/

/-- The canonical event of both services (identical struct in
ingest/main.go and worker/main.go). -/
structure LogEvent where
  TenantID : Str
  LogID : Str
  OriginalText : Str
  Source : Str
deriving DecidableEq

def keyTenantId : Str := ("tenant_id").toList
def keyLogId : Str := ("log_id").toList
def keyText : Str := ("text").toList
def keyOriginalText : Str := ("original_text").toList
def keySource : Str := ("source").toList
def srcJsonUpload : Str := ("json_upload").toList
def srcTextUpload : Str := ("text_upload").toList
def ctHeaderName : Str := ("content-type").toList
def xTenantHeaderName : Str := ("x-tenant-id").toList
def ctJsonPat : Str := ("application/json").toList
def ctTextPat : Str := ("text/plain").toList

def unsupportedCTBody : Str := ("\x7b\"error\":\"Unsupported Content-Type\"\x7d").toList
def invalidJsonBody : Str := ("\x7b\"error\":\"Invalid JSON\"\x7d").toList
def missingTenantBody : Str := ("\x7b\"error\":\"Missing tenant_id\"\x7d").toList
def missingTextBody : Str := ("\x7b\"error\":\"Missing text content\"\x7d").toList
def internalErrorBody : Str := ("\x7b\"error\":\"Internal server error\"\x7d").toList

structure HTTPRequest where
  headers : List (Str × Str)
  body : Str

structure HTTPResponse where
  statusCode : Nat
  headers : List (Str × Str)
  body : Str
deriving DecidableEq

/-- Result of one ingest invocation: the Go handler's two return values
plus an instrumentation field recording every `sqsClient.SendMessage`
call made (in order). -/
structure IngestResult where
  response : HTTPResponse
  goError : Option Unit
  enqueued : List LogEvent
deriving DecidableEq

/-- `headers[strings.ToLower(k)] = v` over all request headers, then a
Go map lookup (missing key yields `""`): the last entry whose lowercased
key equals `name` wins. -/
def getHeader (hs : List (Str × Str)) (name : Str) : Str :=
  match (hs.map (fun p => (toLowerStr p.1, p.2))).reverse.find? (fun p => p.1 == name) with
  | some p => p.2
  | none => []

/-- Go map `m[key]` for the map produced by unmarshalling a JSON object:
keys are inserted in document order, so the last duplicate wins. -/
def mapGet (kvs : List (Str × Json)) (k : Str) : Option Json :=
  (kvs.reverse.find? (fun p => p.1 == k)).map Prod.snd

/-- The type assertion `bodyMap[k].(string)`: succeeds exactly when the
entry is present and is a JSON string. -/
def mapGetString (kvs : List (Str × Json)) (k : Str) : Option Str :=
  match mapGet kvs k with
  | some (Json.str s) => some s
  | _ => none

/-- `json.Unmarshal(body, &bodyMap)` for `bodyMap : map[string]interface` :
succeeds on a JSON object (its members) and on JSON `null` (leaving the
map nil, i.e. empty); any other body — invalid JSON or a valid non-object
value — is an error. -/
def unmarshalMap (body : Str) : Option (List (Str × Json)) :=
  match parseJson body with
  | some (Json.obj kvs) => some kvs
  | some Json.null => some []
  | _ => none

def hexDigitChar (n : Nat) : Char :=
  if n < 10 then Char.ofNat (48 + n) else Char.ofNat (87 + n)

def escU (n : Nat) : Str :=
  ['\\', 'u', hexDigitChar (n / 4096 % 16), hexDigitChar (n / 256 % 16),
   hexDigitChar (n / 16 % 16), hexDigitChar (n % 16)]

/-- Go `json.Marshal` string escaping (default HTML-escaping encoder). -/
def escapeJsonChar (c : Char) : Str :=
  if c = '"' then ['\\', '"']
  else if c = '\\' then ['\\', '\\']
  else if c = '\n' then ['\\', 'n']
  else if c = '\r' then ['\\', 'r']
  else if c = '\t' then ['\\', 't']
  else if c.toNat < 32 then escU c.toNat
  else if c = '<' || c = '>' || c = '&' then escU c.toNat
  else if c.toNat = 8232 || c.toNat = 8233 then escU c.toNat
  else [c]

def marshalStr (s : Str) : Str := '"' :: (s.map escapeJsonChar).flatten ++ ['"']

/-- Body of the 202 response: `json.Marshal` of a `map[string]string`
serializes keys in sorted order (log_id, message, status, tenant_id). -/
def acceptedBody (logID tenantID : Str) : Str :=
  (("\x7b\"log_id\":").toList) ++ marshalStr logID ++
  ((",\"message\":\"Processing queued\",\"status\":\"accepted\",\"tenant_id\":").toList) ++
  marshalStr tenantID ++ (("\x7d").toList)

def errResult (code : Nat) (body : Str) : IngestResult :=
  { response := { statusCode := code, headers := [], body := body },
    goError := none, enqueued := [] }

/-- ingest/main.go lines 73-107: validation of the normalized event,
then the SQS publish (`sendOk` models whether `SendMessage` returns an
error) and the 202 response. -/
def validateAndSend (ev : LogEvent) (sendOk : Bool) : IngestResult :=
  if ev.TenantID = [] then errResult 400 missingTenantBody
  else if ev.OriginalText = [] then errResult 400 missingTextBody
  else if sendOk then
    { response := { statusCode := 202,
                    headers := [((("Content-Type").toList), (("application/json").toList))],
                    body := acceptedBody ev.LogID ev.TenantID },
      goError := none, enqueued := [ev] }
  else { response := { statusCode := 500, headers := [], body := internalErrorBody },
         goError := none, enqueued := [ev] }

/-- The JSON branch of the ingest handler (Content-Type contains
`application/json`). -/
def ingestJsonPath (genID : Str) (sendOk : Bool) (req : HTTPRequest) : IngestResult :=
  match unmarshalMap req.body with
  | none => errResult 400 invalidJsonBody
  | some kvs =>
    validateAndSend
      { TenantID := (mapGetString kvs keyTenantId).getD []
        LogID := (mapGetString kvs keyLogId).getD genID
        OriginalText := (mapGetString kvs keyText).getD []
        Source := srcJsonUpload } sendOk

/-- The text branch of the ingest handler (Content-Type contains
`text/plain`). -/
def ingestTextPath (genID : Str) (sendOk : Bool) (req : HTTPRequest) : IngestResult :=
  validateAndSend
    { TenantID := getHeader req.headers xTenantHeaderName
      LogID := genID
      OriginalText := req.body
      Source := srcTextUpload } sendOk

/-- ingest/main.go `handler`.  `genID` is the identifier produced by
`uuid.New().String()`; `sendOk` models the SQS client.  Note the header
NAME lookup is case-insensitive (keys are lowercased) while the
Content-Type VALUE is matched by case-sensitive `strings.Contains`. -/
def ingestHandler (genID : Str) (sendOk : Bool) (req : HTTPRequest) : IngestResult :=
  let contentType := getHeader req.headers ctHeaderName
  if containsSubstr contentType ctJsonPat then ingestJsonPath genID sendOk req
  else if containsSubstr contentType ctTextPat then ingestTextPath genID sendOk req
  else errResult 400 unsupportedCTBody

/-! ## Worker (worker/main.go, embedded at the end of main.tf) -/

/-- One DynamoDB item as written by `processMessage` (lines 358-369). -/
structure StoredItem where
  tenant_id : Str
  log_id : Str
  source : Str
  original_text : Str
  modified_data : Str
  processed_at : Str
  status : Str
deriving DecidableEq

/-- The store: association list keyed by the table's
(hash_key `tenant_id`, range_key `log_id`); a put replaces the item
with the same key (unconditional upsert). -/
abbrev Store := List ((Str × Str) × StoredItem)

def itemKey (it : StoredItem) : Str × Str := (it.tenant_id, it.log_id)

def putStore (store : Store) (it : StoredItem) : Store :=
  (itemKey it, it) :: store.filter (fun p => p.1 != itemKey it)

def getItem (store : Store) (k : Str × Str) : Option StoredItem :=
  (store.find? (fun p => p.1 == k)).map Prod.snd

def statusProcessed : Str := ("PROCESSED").toList

/-- The item `processMessage` builds for a deserialized event (`now` is
`time.Now().UTC().Format(time.RFC3339)`). -/
def mkItem (ev : LogEvent) (now : Str) : StoredItem :=
  { tenant_id := ev.TenantID
    log_id := ev.LogID
    source := ev.Source
    original_text := ev.OriginalText
    modified_data := redactPII ev.OriginalText
    processed_at := now
    status := statusProcessed }

def zeroEvent : LogEvent := { TenantID := [], LogID := [], OriginalText := [], Source := [] }

/-- Which struct field a JSON object key selects when unmarshalling into
`LogEvent` (Go matches the json tag exactly, else case-insensitively;
the tags are lowercase, so both collapse to a case-insensitive match). -/
def fieldFor (k : Str) : Option Nat :=
  let kl := toLowerStr k
  if kl == keyTenantId then some 0
  else if kl == keyLogId then some 1
  else if kl == keyOriginalText then some 2
  else if kl == keySource then some 3
  else none

/-- Assign one JSON object member to the struct: unknown keys are
ignored, `null` is skipped, a string sets the field, any other type is
an unmarshalling error. -/
def applyField (ev : LogEvent) (k : Str) (v : Json) : Option LogEvent :=
  match fieldFor k with
  | none => some ev
  | some i =>
    match v with
    | Json.null => some ev
    | Json.str sv =>
      some (if i = 0 then { ev with TenantID := sv }
            else if i = 1 then { ev with LogID := sv }
            else if i = 2 then { ev with OriginalText := sv }
            else { ev with Source := sv })
    | _ => none

/-- `json.Unmarshal(message.Body, &event)` for the `LogEvent` struct:
a JSON object assigns matching members in order; `null` leaves the zero
value; any other body (invalid JSON or a valid non-object value) and any
wrong-typed matched field is an error. -/
def decodeLogEvent (body : Str) : Option LogEvent :=
  match parseJson body with
  | some (Json.obj kvs) =>
    kvs.foldl (fun acc kv => acc.bind (fun ev => applyField ev kv.1 kv.2)) (some zeroEvent)
  | some Json.null => some zeroEvent
  | _ => none

structure SQSMessage where
  messageId : Str
  body : Str
deriving DecidableEq

/-- worker/main.go `processMessage` effect on the store: deserialize,
(sleep — pure delay, modelled separately), redact, `PutItem`.  `putOk`
models whether the DynamoDB put of a given item succeeds; `none` means
the message's processing returned an error. -/
def processMessage (putOk : StoredItem → Bool) (now : Str) (store : Store)
    (m : SQSMessage) : Option Store :=
  match decodeLogEvent m.body with
  | none => none
  | some ev =>
    if putOk (mkItem ev now) then some (putStore store (mkItem ev now)) else none

/-- Whether a message fails; independent of the store state. -/
def msgFails (putOk : StoredItem → Bool) (now : Str) (m : SQSMessage) : Bool :=
  match decodeLogEvent m.body with
  | none => true
  | some ev => !putOk (mkItem ev now)

/-- Result of one worker invocation: the final store, the
`SQSEventResponse.BatchItemFailures` identifiers, and the handler's
second (error) return value. -/
structure WorkerResult where
  store : Store
  batchItemFailures : List Str
  goError : Option Unit
deriving DecidableEq

/-- worker/main.go `handler`: process each record; on failure append
only that record's `messageId`; always return a nil error. -/
def workerHandler (putOk : StoredItem → Bool) (now : Str) :
    Store → List SQSMessage → WorkerResult
  | store, [] => { store := store, batchItemFailures := [], goError := none }
  | store, m :: ms =>
    match processMessage putOk now store m with
    | some store2 => workerHandler putOk now store2 ms
    | none =>
      let r := workerHandler putOk now store ms
      { store := r.store, batchItemFailures := m.messageId :: r.batchItemFailures,
        goError := none }

/-- worker/main.go lines 346-352: the simulated-cost delay in
nanoseconds, computed in Go `time.Duration` (int64) arithmetic. -/
def wrap64 (x : Int) : Int := (x + 2 ^ 63) % 2 ^ 64 - 2 ^ 63

def sleepDurationNs (textLen : Nat) : Int :=
  let d := wrap64 (wrap64 ((textLen : Int) * 50) * 1000000)
  if d > 5 * 1000000000 then 5 * 1000000000 else d

/-- The delay computed for an event before redaction. -/
def simulatedDelay (ev : LogEvent) : Int := sleepDurationNs ev.OriginalText.length

/-- The store update a successfully processed message performs. -/
def applySuccess (now : Str) (s : Store) (m : SQSMessage) : Store :=
  match decodeLogEvent m.body with
  | some ev => putStore s (mkItem ev now)
  | none => s

/-! ## Helper lemmas -/

theorem find_filter_ne (k k2 : Str × Str) (h : k2 ≠ k) (s : Store) :
    (s.filter (fun p => p.1 != k)).find? (fun p => p.1 == k2)
      = s.find? (fun p => p.1 == k2) := by
  induction s with
  | nil => rfl
  | cons a t ih =>
    by_cases ha : a.1 = k
    · have hk2 : (a.1 == k2) = false := by
        simp only [beq_eq_false_iff_ne, ne_eq]
        intro he
        exact h (he.symm.trans ha)
      rw [List.filter_cons, if_neg (by simp [ha])]
      simp only [List.find?_cons, hk2]
      exact ih
    · rw [List.filter_cons, if_pos (by simp [bne_iff_ne]; exact ha)]
      by_cases hk2 : (a.1 == k2) = true
      · simp only [List.find?_cons, hk2]
      · have hk2f : (a.1 == k2) = false := by
          cases hb : (a.1 == k2) with
          | true => exact absurd hb hk2
          | false => rfl
        simp only [List.find?_cons, hk2f]
        exact ih

theorem wrap64_id (x : Int) (h0 : 0 ≤ x) (h1 : x < 2 ^ 63) : wrap64 x = x := by
  unfold wrap64
  have hmod : (x + 2 ^ 63) % 2 ^ 64 = x + 2 ^ 63 :=
    Int.emod_eq_of_lt (by omega) (by omega)
  omega

theorem validateAndSend_total (ev : LogEvent) (sendOk : Bool) :
    (validateAndSend ev sendOk).goError = none ∧
    ((validateAndSend ev sendOk).response.statusCode = 202 ∨
     (validateAndSend ev sendOk).response.statusCode = 400 ∨
     (validateAndSend ev sendOk).response.statusCode = 500) := by
  unfold validateAndSend errResult
  split_ifs <;> simp

/-! ## Claim theorems -/

/-- Claim C2: the redact function satisfies the spec's test vectors:
the phone test contains `[REDACTED]` and not the digit sequence, the SSN
and email tests are redacted, `no pii here` is unchanged, and in the
scenario text the phone number is replaced while the IP text
`192.168.1.1` is left intact. -/
theorem redact_spec_vectors :
    redactPII (("call 800-555-0199").toList) = ("call [REDACTED]").toList ∧
    containsSubstr (redactPII (("call 800-555-0199").toList)) redactedMarker = true ∧
    containsSubstr (redactPII (("call 800-555-0199").toList)) (("800-555-0199").toList) = false ∧
    redactPII (("ssn 123-45-6789").toList) = ("ssn [REDACTED]").toList ∧
    redactPII (("a@b.com").toList) = redactedMarker ∧
    redactPII (("no pii here").toList) = ("no pii here").toList ∧
    redactPII (("User 800-555-0199 logged in from 192.168.1.1").toList)
      = ("User [REDACTED] logged in from 192.168.1.1").toList ∧
    containsSubstr (redactPII (("User 800-555-0199 logged in from 192.168.1.1").toList))
      (("192.168.1.1").toList) = true := by
  refine ⟨by decide, by decide, by decide, by decide, by decide, by decide, by decide, by decide⟩

/-- Claim C6: the Record Writer's persistence is an unconditional upsert
keyed by (tenant_id, log_id): writing the same Processed Record twice
leaves the store in the same state as writing it once, and no record
under any other key is affected. -/
theorem record_writer_idempotent_upsert (store : Store) (it : StoredItem) :
    putStore (putStore store it) it = putStore store it ∧
    ∀ k, k ≠ itemKey it → getItem (putStore store it) k = getItem store k := by
  constructor
  · unfold putStore
    have hhead : ((itemKey it, it).1 != itemKey it) = false := by simp
    simp only [List.filter_cons, hhead, if_neg, Bool.false_eq_true, ite_false]
    rw [List.filter_filter]
    simp
  · intro k hk
    unfold getItem putStore
    have hhead : (((itemKey it, it).1 : Str × Str) == k) = false := by
      simp only [beq_eq_false_iff_ne, ne_eq]
      intro he
      exact hk he.symm
    simp only [List.find?_cons, hhead]
    rw [find_filter_ne _ _ hk]

/-- Concrete fixtures shared by the witnesses. -/
def wNow : Str := ("2026-10-11T00:00:00Z").toList

def wEv : LogEvent :=
  { TenantID := ("t").toList
    LogID := ("1").toList
    OriginalText := ("a@b.com").toList
    Source := srcJsonUpload }

def wMsg : SQSMessage :=
  { messageId := ("m1").toList
    body := ("\x7b\"tenant_id\":\"t\",\"log_id\":\"1\",\"original_text\":\"a@b.com\",\"source\":\"json_upload\"\x7d").toList }

/-- Witness for C6 at a concrete store, item and foreign key. -/
theorem record_writer_idempotent_upsert_witness :
    getItem (putStore [] (mkItem wEv wNow)) ((("b").toList), (("2").toList))
      = getItem [] ((("b").toList), (("2").toList)) :=
  (record_writer_idempotent_upsert [] (mkItem wEv wNow)).2
    ((("b").toList), (("2").toList)) (by decide)

/-- Claim C8: worker processing never alters the original event fields:
for every successfully processed message the persisted item's tenant_id,
log_id, original_text and source equal those of the deserialized
LogEvent, and processing only adds modified_data, processed_at and
status. -/
theorem worker_preserves_original_fields (putOk : StoredItem → Bool) (now : Str)
    (store : Store) (m : SQSMessage) (ev : LogEvent) (store2 : Store)
    (hdec : decodeLogEvent m.body = some ev)
    (hp : processMessage putOk now store m = some store2) :
    store2 = putStore store (mkItem ev now) ∧
    (mkItem ev now).tenant_id = ev.TenantID ∧
    (mkItem ev now).log_id = ev.LogID ∧
    (mkItem ev now).original_text = ev.OriginalText ∧
    (mkItem ev now).source = ev.Source ∧
    (mkItem ev now).modified_data = redactPII ev.OriginalText ∧
    (mkItem ev now).processed_at = now ∧
    (mkItem ev now).status = statusProcessed := by
  unfold processMessage at hp
  rw [hdec] at hp
  by_cases hput : putOk (mkItem ev now) = true
  · simp only [hput, if_true, Option.some.injEq] at hp
    exact ⟨hp.symm, rfl, rfl, rfl, rfl, rfl, rfl, rfl⟩
  · simp [hput] at hp

/-- Witness for C8 on a concrete queue message. -/
theorem worker_preserves_original_fields_witness :
    putStore [] (mkItem wEv wNow) = putStore [] (mkItem wEv wNow) ∧
    (mkItem wEv wNow).tenant_id = wEv.TenantID ∧
    (mkItem wEv wNow).log_id = wEv.LogID ∧
    (mkItem wEv wNow).original_text = wEv.OriginalText ∧
    (mkItem wEv wNow).source = wEv.Source ∧
    (mkItem wEv wNow).modified_data = redactPII wEv.OriginalText ∧
    (mkItem wEv wNow).processed_at = wNow ∧
    (mkItem wEv wNow).status = statusProcessed :=
  worker_preserves_original_fields (fun _ => true) wNow [] wMsg wEv
    (putStore [] (mkItem wEv wNow)) (by rfl) (by rfl)

/-- Claim C9: the simulated-cost delay is min(len × 50ms, 5s) in
nanoseconds and never exceeds the 5-second cap (within the int64 range
of Go `time.Duration` arithmetic; any real message length is far below
the overflow bound). -/
theorem simulated_delay_min_cap (n : Nat) (h : (n : Int) * 50000000 < 2 ^ 63) :
    sleepDurationNs n = min ((n : Int) * 50000000) 5000000000 ∧
    sleepDurationNs n ≤ 5000000000 := by
  have hn : 0 ≤ (n : Int) := Int.natCast_nonneg n
  have h50 : (n : Int) * 50 < 2 ^ 63 := by nlinarith
  have h50n : 0 ≤ (n : Int) * 50 := by positivity
  have hbig : 0 ≤ (n : Int) * 50000000 := by positivity
  unfold sleepDurationNs
  dsimp only
  rw [wrap64_id _ h50n h50]
  have hassoc : (n : Int) * 50 * 1000000 = (n : Int) * 50000000 := by ring
  rw [hassoc, wrap64_id _ hbig h]
  constructor
  · rw [Int.min_def]
    split_ifs <;> omega
  · split_ifs <;> omega

/-- Witness for C9 at lengths 3 (below the cap) and 101 (capped). -/
theorem simulated_delay_min_cap_witness :
    ((3 : Nat) : Int) * 50000000 < 2 ^ 63 ∧
    sleepDurationNs 3 = min (((3 : Nat) : Int) * 50000000) 5000000000 ∧
    sleepDurationNs 101 ≤ 5000000000 :=
  ⟨by norm_num, (simulated_delay_min_cap 3 (by norm_num)).1,
    (simulated_delay_min_cap 101 (by norm_num)).2⟩

/-- Claim C1: the worker handler processes each batch message
independently: the returned failure list is exactly the identifiers of
the failing messages (failure of a message is a property of that message
alone), every succeeding message's write is applied to the store, and
the handler always returns a nil error, never failing the whole batch. -/
theorem worker_batch_isolation (putOk : StoredItem → Bool) (now : Str)
    (store : Store) (msgs : List SQSMessage) :
    (workerHandler putOk now store msgs).goError = none ∧
    (workerHandler putOk now store msgs).batchItemFailures
      = (msgs.filter (fun m => msgFails putOk now m)).map SQSMessage.messageId ∧
    (workerHandler putOk now store msgs).store
      = (msgs.filter (fun m => !msgFails putOk now m)).foldl (applySuccess now) store := by
  induction msgs generalizing store with
  | nil => exact ⟨rfl, rfl, rfl⟩
  | cons m ms ih =>
    cases hd : decodeLogEvent m.body with
    | none =>
      have hf : msgFails putOk now m = true := by simp [msgFails, hd]
      have hp : processMessage putOk now store m = none := by simp [processMessage, hd]
      have hih := ih store
      simp only [workerHandler, hp, List.filter_cons, hf, Bool.not_true,
        Bool.false_eq_true, if_false, if_true, List.map_cons]
      exact ⟨trivial, by rw [hih.2.1], hih.2.2⟩
    | some ev =>
      cases hput : putOk (mkItem ev now) with
      | true =>
        have hf : msgFails putOk now m = false := by simp [msgFails, hd, hput]
        have hp : processMessage putOk now store m
            = some (putStore store (mkItem ev now)) := by
          simp [processMessage, hd, hput]
        have happ : applySuccess now store m = putStore store (mkItem ev now) := by
          simp [applySuccess, hd]
        have hih := ih (putStore store (mkItem ev now))
        simp only [workerHandler, hp, List.filter_cons, hf, Bool.not_false,
          Bool.false_eq_true, if_false, if_true, List.foldl_cons, happ]
        exact hih
      | false =>
        have hf : msgFails putOk now m = true := by simp [msgFails, hd, hput]
        have hp : processMessage putOk now store m = none := by
          simp [processMessage, hd, hput]
        have hih := ih store
        simp only [workerHandler, hp, List.filter_cons, hf, Bool.not_true,
          Bool.false_eq_true, if_false, if_true, List.map_cons]
        exact ⟨trivial, by rw [hih.2.1], hih.2.2⟩

/-- Claim C5: a request the Normalizer rejects (any 400 response) never
reaches the queue: the ingest handler makes zero enqueue calls. -/
theorem rejected_request_never_enqueued (genID : Str) (sendOk : Bool)
    (req : HTTPRequest)
    (h : (ingestHandler genID sendOk req).response.statusCode = 400) :
    (ingestHandler genID sendOk req).enqueued = [] := by
  unfold ingestHandler at h ⊢
  cases h1 : containsSubstr (getHeader req.headers ctHeaderName) ctJsonPat with
  | true =>
    simp only [h1, if_true] at h ⊢
    unfold ingestJsonPath at h ⊢
    cases hm : unmarshalMap req.body with
    | none => rfl
    | some kvs =>
      simp only [hm] at h ⊢
      unfold validateAndSend at h ⊢
      split_ifs at h ⊢ <;> first | rfl | simp_all
  | false =>
    simp only [h1, Bool.false_eq_true, if_false] at h ⊢
    cases h2 : containsSubstr (getHeader req.headers ctHeaderName) ctTextPat with
    | true =>
      simp only [h2, if_true] at h ⊢
      unfold ingestTextPath at h ⊢
      unfold validateAndSend at h ⊢
      split_ifs at h ⊢ <;> first | rfl | simp_all
    | false =>
      simp only [h2, Bool.false_eq_true, if_false] at h ⊢
      rfl

/-- Witness for C5 at a concrete rejected request. -/
theorem rejected_request_never_enqueued_witness :
    (ingestHandler (("G").toList) true
      { headers := [], body := ("x").toList }).enqueued = [] :=
  rejected_request_never_enqueued (("G").toList) true
    { headers := [], body := ("x").toList } (by decide)

/-- Claim C3: the ingest handler applies validation checks in the fixed
order (1) unsupported content type, (2) malformed JSON body (JSON path),
(3) empty/missing tenant_id, (4) empty/missing text; the first failing
check wins and each failure returns its distinct 400 body; an enqueue
failure after successful validation returns 500. -/
theorem ingest_validation_order (genID : Str) (sendOk : Bool) (req : HTTPRequest) :
    (containsSubstr (getHeader req.headers ctHeaderName) ctJsonPat = false →
      containsSubstr (getHeader req.headers ctHeaderName) ctTextPat = false →
      ingestHandler genID sendOk req = errResult 400 unsupportedCTBody) ∧
    (containsSubstr (getHeader req.headers ctHeaderName) ctJsonPat = true →
      unmarshalMap req.body = none →
      ingestHandler genID sendOk req = errResult 400 invalidJsonBody) ∧
    (∀ kvs, containsSubstr (getHeader req.headers ctHeaderName) ctJsonPat = true →
      unmarshalMap req.body = some kvs →
      (mapGetString kvs keyTenantId).getD [] = [] →
      ingestHandler genID sendOk req = errResult 400 missingTenantBody) ∧
    (containsSubstr (getHeader req.headers ctHeaderName) ctJsonPat = false →
      containsSubstr (getHeader req.headers ctHeaderName) ctTextPat = true →
      getHeader req.headers xTenantHeaderName = [] →
      ingestHandler genID sendOk req = errResult 400 missingTenantBody) ∧
    (∀ kvs, containsSubstr (getHeader req.headers ctHeaderName) ctJsonPat = true →
      unmarshalMap req.body = some kvs →
      (mapGetString kvs keyTenantId).getD [] ≠ [] →
      (mapGetString kvs keyText).getD [] = [] →
      ingestHandler genID sendOk req = errResult 400 missingTextBody) ∧
    (containsSubstr (getHeader req.headers ctHeaderName) ctJsonPat = false →
      containsSubstr (getHeader req.headers ctHeaderName) ctTextPat = true →
      getHeader req.headers xTenantHeaderName ≠ [] → req.body = [] →
      ingestHandler genID sendOk req = errResult 400 missingTextBody) ∧
    (∀ kvs, containsSubstr (getHeader req.headers ctHeaderName) ctJsonPat = true →
      unmarshalMap req.body = some kvs →
      (mapGetString kvs keyTenantId).getD [] ≠ [] →
      (mapGetString kvs keyText).getD [] ≠ [] → sendOk = false →
      (ingestHandler genID sendOk req).response
        = { statusCode := 500, headers := [], body := internalErrorBody }) ∧
    (containsSubstr (getHeader req.headers ctHeaderName) ctJsonPat = false →
      containsSubstr (getHeader req.headers ctHeaderName) ctTextPat = true →
      getHeader req.headers xTenantHeaderName ≠ [] → req.body ≠ [] → sendOk = false →
      (ingestHandler genID sendOk req).response
        = { statusCode := 500, headers := [], body := internalErrorBody }) := by
  refine ⟨?_, ?_, ?_, ?_, ?_, ?_, ?_, ?_⟩
  · intro h1 h2
    simp [ingestHandler, h1, h2]
  · intro h1 hm
    simp [ingestHandler, ingestJsonPath, h1, hm]
  · intro kvs h1 hm ht
    simp [ingestHandler, ingestJsonPath, validateAndSend, h1, hm, ht]
  · intro h1 h2 ht
    simp [ingestHandler, ingestTextPath, validateAndSend, h1, h2, ht]
  · intro kvs h1 hm ht htx
    simp [ingestHandler, ingestJsonPath, validateAndSend, h1, hm, ht, htx]
  · intro h1 h2 ht hb
    simp [ingestHandler, ingestTextPath, validateAndSend, h1, h2, ht, hb]
  · intro kvs h1 hm ht htx hs
    simp [ingestHandler, ingestJsonPath, validateAndSend, h1, hm, ht, htx, hs]
  · intro h1 h2 ht hb hs
    simp [ingestHandler, ingestTextPath, validateAndSend, h1, h2, ht, hb, hs]

/-- Witness for C3: each validation branch exercised at a concrete
request. -/
theorem ingest_validation_order_witness :
    ingestHandler (("G").toList) true
      { headers := [], body := ("x").toList } = errResult 400 unsupportedCTBody ∧
    ingestHandler (("G").toList) true
      { headers := [((("content-type").toList), (("application/json").toList))]
        body := ("oops").toList } = errResult 400 invalidJsonBody ∧
    ingestHandler (("G").toList) true
      { headers := [((("content-type").toList), (("application/json").toList))]
        body := ("\x7b\"text\":\"x\"\x7d").toList } = errResult 400 missingTenantBody ∧
    ingestHandler (("G").toList) true
      { headers := [((("content-type").toList), (("text/plain").toList))]
        body := ("x").toList } = errResult 400 missingTenantBody ∧
    ingestHandler (("G").toList) true
      { headers := [((("content-type").toList), (("application/json").toList))]
        body := ("\x7b\"tenant_id\":\"t\",\"text\":\"\"\x7d").toList }
      = errResult 400 missingTextBody ∧
    ingestHandler (("G").toList) true
      { headers := [((("content-type").toList), (("text/plain").toList)),
                    ((("x-tenant-id").toList), (("t").toList))], body := [] }
      = errResult 400 missingTextBody ∧
    (ingestHandler (("G").toList) false
      { headers := [((("content-type").toList), (("application/json").toList))]
        body := ("\x7b\"tenant_id\":\"t\",\"text\":\"x\"\x7d").toList }).response
      = { statusCode := 500, headers := [], body := internalErrorBody } ∧
    (ingestHandler (("G").toList) false
      { headers := [((("content-type").toList), (("text/plain").toList)),
                    ((("x-tenant-id").toList), (("t").toList))], body := ("x").toList }).response
      = { statusCode := 500, headers := [], body := internalErrorBody } := by
  refine ⟨?_, ?_, ?_, ?_, ?_, ?_, ?_, ?_⟩
  · exact (ingest_validation_order (("G").toList) true _).1 (by decide) (by decide)
  · exact (ingest_validation_order (("G").toList) true _).2.1 (by decide) (by rfl)
  · exact (ingest_validation_order (("G").toList) true _).2.2.1
      [((("text").toList), Json.str (("x").toList))] (by decide) (by rfl) (by rfl)
  · exact (ingest_validation_order (("G").toList) true _).2.2.2.1
      (by decide) (by decide) (by decide)
  · exact (ingest_validation_order (("G").toList) true _).2.2.2.2.1
      [((("tenant_id").toList), Json.str (("t").toList)),
       ((("text").toList), Json.str [])] (by decide) (by rfl) (by decide) (by rfl)
  · exact (ingest_validation_order (("G").toList) true _).2.2.2.2.2.1
      (by decide) (by decide) (by decide) (by rfl)
  · exact (ingest_validation_order (("G").toList) false _).2.2.2.2.2.2.1
      [((("tenant_id").toList), Json.str (("t").toList)),
       ((("text").toList), Json.str (("x").toList))] (by decide) (by rfl) (by decide)
      (by decide) (by rfl)
  · exact (ingest_validation_order (("G").toList) false _).2.2.2.2.2.2.2
      (by decide) (by decide) (by decide) (by decide) (by rfl)

/-- A request whose Content-Type value carries `application/json` in
upper case. -/
def reqUpperCT : HTTPRequest :=
  { headers := [((("content-type").toList), (("APPLICATION/JSON").toList))]
    body := ("\x7b\"tenant_id\":\"t\",\"text\":\"x\"\x7d").toList }

/-- Counterexample to C4 as stated: a Content-Type value containing
`application/json` in upper case does NOT select the JSON path — the
handler rejects it with 400 Unsupported Content-Type (the value match is
case-sensitive; only the header NAME lookup is case-insensitive). -/
theorem ingest_ct_dispatch_counterexample :
    containsSubstr (toLowerStr (getHeader reqUpperCT.headers ctHeaderName)) ctJsonPat = true ∧
    ingestHandler (("G").toList) true reqUpperCT = errResult 400 unsupportedCTBody ∧
    ingestHandler (("G").toList) true reqUpperCT ≠ ingestJsonPath (("G").toList) true reqUpperCT := by
  exact ⟨by decide, by decide, by decide⟩

/-- Claim C4 (amended): dispatch looks up the header under the lowercased
name `content-type` (header-name lookup is case-insensitive), then
matches the value by case-SENSITIVE substring: a value containing
`application/json` selects the JSON path, else one containing
`text/plain` selects the text path, and any other value (including a
missing header) is rejected with 400 Unsupported Content-Type. -/
theorem ingest_ct_dispatch_amended (genID : Str) (sendOk : Bool) (req : HTTPRequest) :
    (containsSubstr (getHeader req.headers ctHeaderName) ctJsonPat = true →
      ingestHandler genID sendOk req = ingestJsonPath genID sendOk req) ∧
    (containsSubstr (getHeader req.headers ctHeaderName) ctJsonPat = false →
      containsSubstr (getHeader req.headers ctHeaderName) ctTextPat = true →
      ingestHandler genID sendOk req = ingestTextPath genID sendOk req) ∧
    (containsSubstr (getHeader req.headers ctHeaderName) ctJsonPat = false →
      containsSubstr (getHeader req.headers ctHeaderName) ctTextPat = false →
      ingestHandler genID sendOk req = errResult 400 unsupportedCTBody) ∧
    (∀ v b : Str,
      ingestHandler genID sendOk { headers := [((("Content-Type").toList), v)], body := b }
        = ingestHandler genID sendOk { headers := [((("content-type").toList), v)], body := b }) := by
  refine ⟨?_, ?_, ?_, ?_⟩
  · intro h1
    simp [ingestHandler, h1]
  · intro h1 h2
    simp [ingestHandler, h1, h2]
  · intro h1 h2
    simp [ingestHandler, h1, h2]
  · intro v b
    rfl

/-- Witness for C4 (amended) at concrete requests, including a value
with a charset parameter. -/
theorem ingest_ct_dispatch_amended_witness :
    ingestHandler (("G").toList) true
      { headers := [((("content-type").toList), (("application/json; charset=utf-8").toList))]
        body := ("\x7b\"tenant_id\":\"t\",\"text\":\"x\"\x7d").toList }
      = ingestJsonPath (("G").toList) true
      { headers := [((("content-type").toList), (("application/json; charset=utf-8").toList))]
        body := ("\x7b\"tenant_id\":\"t\",\"text\":\"x\"\x7d").toList } ∧
    ingestHandler (("G").toList) true
      { headers := [((("content-type").toList), (("text/plain").toList))]
        body := ("x").toList }
      = ingestTextPath (("G").toList) true
      { headers := [((("content-type").toList), (("text/plain").toList))]
        body := ("x").toList } ∧
    ingestHandler (("G").toList) true
      { headers := [((("content-type").toList), (("text/html").toList))]
        body := ("x").toList } = errResult 400 unsupportedCTBody ∧
    ingestHandler (("G").toList) true
      { headers := [((("Content-Type").toList), (("text/plain").toList))]
        body := ("x").toList }
      = ingestHandler (("G").toList) true
      { headers := [((("content-type").toList), (("text/plain").toList))]
        body := ("x").toList } := by
  refine ⟨?_, ?_, ?_, ?_⟩
  · exact (ingest_ct_dispatch_amended (("G").toList) true _).1 (by decide)
  · exact (ingest_ct_dispatch_amended (("G").toList) true _).2.1 (by decide) (by decide)
  · exact (ingest_ct_dispatch_amended (("G").toList) true _).2.2.1 (by decide) (by decide)
  · exact (ingest_ct_dispatch_amended (("G").toList) true
      { headers := [((("Content-Type").toList), (("text/plain").toList))]
        body := ("x").toList }).2.2.2 (("text/plain").toList) (("x").toList)

/-- A JSON-path request whose body is valid JSON but not an object. -/
def req42 : HTTPRequest :=
  { headers := [((("content-type").toList), (("application/json").toList))]
    body := ("42").toList }

/-- Counterexample to C7 as stated: the body `42` is valid JSON, yet the
handler hard-fails with 400 Invalid JSON — so "only a body that is not
valid JSON is a hard failure" is false: any valid JSON whose top level
is not an object (or null) also hard-fails. -/
theorem json_extraction_counterexample :
    (parseJson req42.body).isSome = true ∧
    ingestHandler (("G").toList) true req42 = errResult 400 invalidJsonBody := by
  exact ⟨by decide, by decide⟩

/-- Claim C7 (amended): on the JSON path, a body that unmarshals as a
JSON object (or the literal null) has tenant_id, text and log_id
extracted exactly when present as JSON strings (absent or wrong-typed
fields are treated as absent, and an absent log_id falls back to the
generated identifier); a body that does not unmarshal as an object —
invalid JSON or valid JSON whose top level is not an object/null — is a
hard 400 Invalid JSON failure. -/
theorem json_field_extraction_amended (genID : Str) (sendOk : Bool) (req : HTTPRequest) :
    (∀ kvs, containsSubstr (getHeader req.headers ctHeaderName) ctJsonPat = true →
      unmarshalMap req.body = some kvs →
      ingestHandler genID sendOk req
        = validateAndSend
            { TenantID := (mapGetString kvs keyTenantId).getD []
              LogID := (mapGetString kvs keyLogId).getD genID
              OriginalText := (mapGetString kvs keyText).getD []
              Source := srcJsonUpload } sendOk) ∧
    (containsSubstr (getHeader req.headers ctHeaderName) ctJsonPat = true →
      unmarshalMap req.body = none →
      ingestHandler genID sendOk req = errResult 400 invalidJsonBody) ∧
    (∀ kvs k s, mapGetString kvs k = some s ↔ mapGet kvs k = some (Json.str s)) := by
  refine ⟨?_, ?_, ?_⟩
  · intro kvs h1 hm
    simp [ingestHandler, ingestJsonPath, h1, hm]
  · intro h1 hm
    simp [ingestHandler, ingestJsonPath, h1, hm]
  · intro kvs k s
    unfold mapGetString
    cases h : mapGet kvs k with
    | none => simp
    | some j => cases j <;> simp

/-- Witness for C7 (amended): extraction on a concrete object body with
a wrong-typed tenant_id, an absent log_id, and a string text field. -/
theorem json_field_extraction_amended_witness :
    ingestHandler (("G").toList) true
      { headers := [((("content-type").toList), (("application/json").toList))]
        body := ("\x7b\"tenant_id\":7,\"text\":\"hi\"\x7d").toList }
      = validateAndSend
          { TenantID := (mapGetString
              [((("tenant_id").toList), Json.num (("7").toList)),
               ((("text").toList), Json.str (("hi").toList))] keyTenantId).getD []
            LogID := (mapGetString
              [((("tenant_id").toList), Json.num (("7").toList)),
               ((("text").toList), Json.str (("hi").toList))] keyLogId).getD (("G").toList)
            OriginalText := (mapGetString
              [((("tenant_id").toList), Json.num (("7").toList)),
               ((("text").toList), Json.str (("hi").toList))] keyText).getD []
            Source := srcJsonUpload } true :=
  (json_field_extraction_amended (("G").toList) true
      { headers := [((("content-type").toList), (("application/json").toList))]
        body := ("\x7b\"tenant_id\":7,\"text\":\"hi\"\x7d").toList }).1
    [((("tenant_id").toList), Json.num (("7").toList)),
     ((("text").toList), Json.str (("hi").toList))] (by decide) (by rfl)

/-- Claim C10: the ingest handler is total at its public interface: for
every request it returns exactly one response whose status code is 202,
400 or 500, together with a nil Go error. -/
theorem ingest_handler_total (genID : Str) (sendOk : Bool) (req : HTTPRequest) :
    (ingestHandler genID sendOk req).goError = none ∧
    ((ingestHandler genID sendOk req).response.statusCode = 202 ∨
     (ingestHandler genID sendOk req).response.statusCode = 400 ∨
     (ingestHandler genID sendOk req).response.statusCode = 500) := by
  unfold ingestHandler
  cases h1 : containsSubstr (getHeader req.headers ctHeaderName) ctJsonPat with
  | true =>
    simp only [h1, if_true]
    unfold ingestJsonPath
    cases hm : unmarshalMap req.body with
    | none => simp [errResult]
    | some kvs => exact validateAndSend_total _ _
  | false =>
    simp only [h1, Bool.false_eq_true, if_false]
    cases h2 : containsSubstr (getHeader req.headers ctHeaderName) ctTextPat with
    | true =>
      simp only [h2, if_true]
      exact validateAndSend_total _ _
    | false =>
      simp only [h2, Bool.false_eq_true, if_false]
      simp [errResult]

end RDP
